import Mathlib

/-!
Verification of the computational core of the GCSE progress tracker:
the progress aggregator, the six alert-rule evaluators, the notification
dispatcher, the AI roadmap validation and the roadmap-ingestion commit.

The Django models and functions of `tracker/models.py`, `tracker/views.py`,
`tracker/alerts.py` and `tracker/ai_service.py` are shallowly embedded:
every table is a list of records in a `DB` structure, `QuerySet` filters
become `List.filter`, timestamps are integers counting hours since an
epoch, calendar dates are integers counting days (a timestamp `t` falls on
day `Int.fdiv t 24`, matching Python's flooring `timedelta.days`), and
Python floats are modelled as rationals.
-/

/-- Python floats are modelled as exact fractions with a positive
denominator (every denominator built below is a product of positive
counts); the operations mirror the source's float expressions one for
one. This ignores IEEE-754 representation error, which no claim in this
development depends on. -/
structure PyFloat where
  num : Int
  den : Int
deriving DecidableEq, Repr

namespace PyFloat

def ofNat (n : Nat) : PyFloat := ⟨n, 1⟩

/-- `a / n` for a positive count `n` (all divisions in the source are
guarded by a zero check on the count). -/
def divByNat (a : PyFloat) (n : Nat) : PyFloat := ⟨a.num, a.den * n⟩

def mulNat (a : PyFloat) (n : Nat) : PyFloat := ⟨a.num * n, a.den⟩

/-- Value equality `a == b` (cross multiplication; denominators positive). -/
def eqv (a b : PyFloat) : Bool := a.num * b.den == b.num * a.den

/-- `a >= b`. -/
def ge (a b : PyFloat) : Bool := decide (b.num * a.den ≤ a.num * b.den)

/-- `a < b`. -/
def lt (a b : PyFloat) : Bool := decide (a.num * b.den < b.num * a.den)

/-- Python's `round(x, 1)`: `⌊10x + 1/2⌋ / 10` (exact tie behaviour
differs: Python rounds half to even, this rounds half up; no statement
below depends on a tie). -/
def round1 (q : PyFloat) : PyFloat := ⟨Int.fdiv (20 * q.num + q.den) (2 * q.den), 10⟩

/-- `completed / total * 100` rounded to 1 decimal — the percentage
formula shared by the progress computations. -/
def pct (completed total : Nat) : PyFloat :=
  round1 (((ofNat completed).divByNat total).mulNat 100)

end PyFloat

/-- Python substring containment `pat in s` on strings. -/
def strContains (s pat : String) : Bool :=
  (List.range (s.data.length + 1)).any
    (fun i => ((s.data.drop i).take pat.data.length) == pat.data)

/-- The calendar day a timestamp (in hours) falls on; Python's
`timedelta.days` floors, hence `Int.fdiv`. -/
def dayOf (t : Int) : Int := Int.fdiv t 24

/-- `tracker.models.Subject` (src/tracker/models.py). -/
structure Subject where
  id : Nat
  userId : Nat
  name : String
deriving DecidableEq, Repr

/-- `tracker.models.TermGoal` (src/tracker/models.py); `deadline` in days. -/
structure TermGoal where
  id : Nat
  subjectId : Nat
  currentLevel : String
  targetLevel : String
  term : String
  deadline : Int
deriving DecidableEq, Repr

/-- `tracker.models.Feedback`. `createdAt` (hours) is modelled from the
spec ("feedback row created within last 24h"): the live model's
`created_at` column is not in src/tracker/models.py (the copy there has
`created_at = models.DateTimeField`, a stale declaration without
parentheses, while tests and `alerts.py` rely on a real timestamp). -/
structure Feedback where
  id : Nat
  subjectId : Nat
  createdAt : Int
deriving DecidableEq, Repr

/-- `tracker.models.Roadmap` (src/tracker/models.py); `generatedAt` in hours. -/
structure Roadmap where
  id : Nat
  subjectId : Nat
  termGoalId : Nat
  title : String
  overview : String
  totalSteps : Nat
  isActive : Bool
  generatedAt : Int
deriving DecidableEq, Repr

/-- `tracker.models.RoadmapStep` (src/tracker/models.py). -/
structure RoadmapStep where
  id : Nat
  roadmapId : Nat
  orderNumber : Int
  title : String
  description : String
  category : String
  difficulty : String
  estimatedHours : Int
deriving DecidableEq, Repr

/-- `tracker.models.ChecklistItem` (src/tracker/models.py). -/
structure ChecklistItem where
  id : Nat
  stepId : Nat
  taskDescription : String
  isCompleted : Bool
  completedAt : Option Int
deriving DecidableEq, Repr

/-- `tracker.models.StudySession` (src/tracker/models.py); dates in days. -/
structure StudySession where
  id : Nat
  userId : Nat
  subjectId : Nat
  hoursSpent : PyFloat
  sessionDate : Int
deriving DecidableEq, Repr

/-- `tracker.models.ProgressAlert` as used by `tracker/alerts.py` and the
test suite (`parent`, `severity`, `title`, `is_read`, `related_subject`,
`related_roadmap`); those fields are missing from the stale copy in
src/tracker/models.py and are modelled from the spec's ProgressAlert
entity (§3). -/
structure ProgressAlert where
  id : Nat
  parent : Nat
  student : Nat
  alertType : String
  severity : String
  title : String
  message : String
  relatedSubject : Option Nat
  relatedRoadmap : Option Nat
  isSent : Bool
  sentAt : Option Int
  isRead : Bool
  readAt : Option Int
  createdAt : Int
deriving DecidableEq, Repr

/-- Modelled from the spec: `tracker.models.UserProfile` as used by
`tracker/alerts.py` and the tests — per-rule preference flags and
thresholds, frequency enum, last-dispatch timestamp, linked students
(§3 UserProfile); the copy in src/tracker/models.py predates these
fields. `email` is the attached auth user's email address. -/
structure UserProfile where
  userId : Nat
  role : String
  fullName : String
  email : String
  emailNotifications : Bool
  alertLowActivity : Bool
  alertLowActivityDays : Int
  alertGoalAtRisk : Bool
  alertGoalAtRiskDays : Int
  alertMilestones : Bool
  alertRoadmapCompleted : Bool
  alertStreakBroken : Bool
  alertNewFeedback : Bool
  alertFrequency : String
  lastAlertSent : Option Int
  linkedStudents : List Nat
deriving DecidableEq, Repr

/-- The relational store: one list per table, plus primary-key counters. -/
structure DB where
  profiles : List UserProfile
  subjects : List Subject
  termGoals : List TermGoal
  feedbacks : List Feedback
  roadmaps : List Roadmap
  steps : List RoadmapStep
  checklistItems : List ChecklistItem
  sessions : List StudySession
  alerts : List ProgressAlert
  nextRoadmapId : Nat
  nextStepId : Nat
  nextItemId : Nat
  nextAlertId : Nat
deriving DecidableEq, Repr

namespace DB

/-- The checklist items of one step (`step.checklist_items`). -/
def stepItems (db : DB) (stepId : Nat) : List ChecklistItem :=
  db.checklistItems.filter (fun c => c.stepId == stepId)

/-- The steps of one roadmap (`roadmap.steps`). -/
def roadmapSteps (db : DB) (roadmapId : Nat) : List RoadmapStep :=
  db.steps.filter (fun s => s.roadmapId == roadmapId)

/-- All checklist items of a roadmap
(`ChecklistItem.objects.filter(roadmap_step__roadmap=roadmap)`). -/
def roadmapItems (db : DB) (roadmapId : Nat) : List ChecklistItem :=
  db.checklistItems.filter (fun c =>
    db.steps.any (fun s => s.id == c.stepId && s.roadmapId == roadmapId))

/-- The owner of a subject, if the subject exists. -/
def subjectOwner (db : DB) (subjectId : Nat) : Option Nat :=
  (db.subjects.find? (fun s => s.id == subjectId)).map (·.userId)

end DB

/-! ## Progress aggregator -/

/-- `RoadmapStep.is_completed` (src/tracker/models.py lines 185-191):
all checklist items completed; `False` when the step has no items. -/
def RoadmapStep.is_completed (db : DB) (st : RoadmapStep) : Bool :=
  let items := db.stepItems st.id
  if items.length = 0 then false
  else items.countP (·.isCompleted) == items.length

/-- The queryset `self.roadmaps.filter(is_active=True)` ordered by the
model Meta ordering `-generated_at`; `.first()` is its head. -/
def DB.activeRoadmap (db : DB) (subjectId : Nat) : Option Roadmap :=
  ((db.roadmaps.filter (fun r => r.subjectId == subjectId && r.isActive)).foldl
    (fun best r => match best with
      | none => some r
      | some b => if r.generatedAt > b.generatedAt then some r else some b)
    none)

/-- `Subject.get_completion_percentage` (src/tracker/models.py lines 65-79).
`completed_steps` is `active_roadmap.steps.filter(checklist_items__is_completed=True).distinct().count()`:
the Django join counts a step as soon as ONE of its checklist items is
completed. -/
def Subject.get_completion_percentage (db : DB) (subjectId : Nat) : PyFloat :=
  match db.activeRoadmap subjectId with
  | none => .ofNat 0
  | some rm =>
    let steps := db.roadmapSteps rm.id
    let total := steps.length
    if total = 0 then .ofNat 0
    else
      let completed := steps.countP (fun st => (db.stepItems st.id).any (·.isCompleted))
      PyFloat.pct completed total

/-- The completion percentage as the specification words it (§4.1):
`completed_steps / total_steps × 100` where a step counts as completed
only if ALL its checklist items are completed, i.e. `RoadmapStep.is_completed`. -/
def completion_percentage_spec (db : DB) (subjectId : Nat) : PyFloat :=
  match db.activeRoadmap subjectId with
  | none => .ofNat 0
  | some rm =>
    let steps := db.roadmapSteps rm.id
    let total := steps.length
    if total = 0 then .ofNat 0
    else
      let completed := steps.countP (fun st => st.is_completed db)
      PyFloat.pct completed total

/-- Modelled from the spec: `Roadmap.calculate_overall_progress`, called by
`tracker/alerts.py` but absent from the stale src/tracker/models.py —
item-level percentage across all the roadmap's checklist items,
`completed_items / total_items × 100` rounded to 1 decimal, 0 when the
roadmap has no items (§4.1 overall_progress). -/
def Roadmap.calculate_overall_progress (db : DB) (roadmapId : Nat) : PyFloat :=
  let items := db.roadmapItems roadmapId
  let total := items.length
  if total = 0 then .ofNat 0
  else PyFloat.pct (items.countP (·.isCompleted)) total

/-- Modelled from the spec: `Roadmap.get_total_items`, used only for alert
message text — the count of all the roadmap's checklist items. -/
def Roadmap.get_total_items (db : DB) (roadmapId : Nat) : Nat :=
  (db.roadmapItems roadmapId).length

/-! ## Template records for concrete examples -/

/-- A parent profile with every preference off; examples override fields. -/
def baseProfile : UserProfile :=
  { userId := 0, role := "parent", fullName := "", email := "",
    emailNotifications := false,
    alertLowActivity := false, alertLowActivityDays := 3,
    alertGoalAtRisk := false, alertGoalAtRiskDays := 7,
    alertMilestones := false, alertRoadmapCompleted := false,
    alertStreakBroken := false, alertNewFeedback := false,
    alertFrequency := "immediate", lastAlertSent := none,
    linkedStudents := [] }

/-- An empty store. -/
def DB.empty : DB :=
  { profiles := [], subjects := [], termGoals := [], feedbacks := [],
    roadmaps := [], steps := [], checklistItems := [], sessions := [],
    alerts := [], nextRoadmapId := 1, nextStepId := 1, nextItemId := 1,
    nextAlertId := 1 }

def baseRoadmap : Roadmap :=
  { id := 1, subjectId := 1, termGoalId := 1, title := "Test Roadmap",
    overview := "", totalSteps := 0, isActive := true, generatedAt := 0 }

def baseStep : RoadmapStep :=
  { id := 1, roadmapId := 1, orderNumber := 1, title := "Step 1",
    description := "", category := "weakness", difficulty := "easy",
    estimatedHours := 5 }

def baseItem : ChecklistItem :=
  { id := 1, stepId := 1, taskDescription := "Task",
    isCompleted := false, completedAt := none }

def baseAlert : ProgressAlert :=
  { id := 1, parent := 1, student := 2, alertType := "low_activity",
    severity := "warning", title := "", message := "",
    relatedSubject := none, relatedRoadmap := none,
    isSent := false, sentAt := none, isRead := false, readAt := none,
    createdAt := 0 }

/-! ## C2 — subject completion percentage -/

/-- Failing input for C2: one active roadmap, one step, two checklist
items of which exactly one is completed. -/
def dbC2 : DB :=
  { DB.empty with
    subjects := [{ id := 1, userId := 2, name := "maths" }],
    roadmaps := [baseRoadmap],
    steps := [baseStep],
    checklistItems :=
      [{ baseItem with id := 1, isCompleted := true, completedAt := some 0 },
       { baseItem with id := 2 }] }

/-- C2: the claim requires a step to contribute only when EVERY checklist
item is completed, so a half-completed single-step roadmap must score 0.
The code's Django join `steps.filter(checklist_items__is_completed=True)`
counts a step as soon as one item is completed: on `dbC2` (one step, one
of two items done) it returns 100, while the step is not completed by the
model's own `RoadmapStep.is_completed` and the spec formula gives 0. -/
theorem c2_partial_step_counts_as_completed :
    (Subject.get_completion_percentage dbC2 1).eqv (.ofNat 100) = true ∧
    (completion_percentage_spec dbC2 1).eqv (.ofNat 0) = true ∧
    dbC2.steps.all (fun st => st.is_completed dbC2 = false) := by
  decide

/-! ## C3 — study streak -/

/-- `StudySession.objects.filter(subject__user=user, session_date=d).exists()`. -/
def DB.hasSessionOn (db : DB) (userId : Nat) (d : Int) : Bool :=
  db.sessions.any (fun s =>
    db.subjects.any (fun sub => sub.id == s.subjectId && sub.userId == userId) &&
    s.sessionDate == d)

/-- The `while True` loop of `calculate_study_streak`
(src/tracker/views.py lines 136-152): count while a session exists on the
current day, stepping one day back each time; after incrementing, stop
when the streak exceeds 365. -/
def streakLoop (db : DB) (userId : Nat) : Nat → Int → Nat → Nat
  | 0, _, streak => streak
  | fuel + 1, d, streak =>
    if db.hasSessionOn userId d then
      if streak + 1 > 365 then streak + 1
      else streakLoop db userId fuel (d - 1) (streak + 1)
    else streak

/-- `calculate_study_streak` (src/tracker/views.py lines 130-154). The
fuel of 366 is not a semantic change: starting from streak 0, the loop
recurses only while `streak + 1 ≤ 365`, so it runs at most 366
iterations and the fuel-exhausted branch is unreachable. -/
def calculate_study_streak (db : DB) (today : Int) (userId : Nat) : Nat :=
  streakLoop db userId 366 today 0

/-- Number of consecutive days with at least one session, walking backward
from `d`, stopping at the first day without one, examining at most `fuel`
days — the spec's walk-back, made fuel-bounded. -/
def consecDays (db : DB) (userId : Nat) : Nat → Int → Nat
  | 0, _ => 0
  | fuel + 1, d =>
    if db.hasSessionOn userId d then consecDays db userId fuel (d - 1) + 1 else 0

theorem consecDays_le (db : DB) (u : Nat) : ∀ fuel d, consecDays db u fuel d ≤ fuel := by
  intro fuel
  induction fuel with
  | zero => intro d; simp [consecDays]
  | succ f ih =>
    intro d
    simp only [consecDays]
    split
    · exact Nat.succ_le_succ (ih (d - 1))
    · exact Nat.zero_le _

theorem streakLoop_eq_consecDays (db : DB) (u : Nat) :
    ∀ fuel s d, s + fuel = 366 → 1 ≤ fuel →
      streakLoop db u fuel d s = s + consecDays db u fuel d := by
  intro fuel
  induction fuel with
  | zero => omega
  | succ f ih =>
    intro s d hs _
    rw [streakLoop]
    by_cases hses : db.hasSessionOn u d
    · simp only [hses, if_true]
      rcases Nat.eq_zero_or_pos f with hf | hf
      · subst hf
        have h365 : s = 365 := by omega
        subst h365
        simp [consecDays, hses]
      · have hlt : ¬ s + 1 > 365 := by omega
        simp only [hlt, if_false]
        rw [ih (s + 1) (d - 1) (by omega) hf]
        simp [consecDays, hses]
        omega
    · simp [hses, consecDays]

/-- A store owning subject 1 for user 2 with one session per given date. -/
def streakDB (dates : List Int) : DB :=
  { DB.empty with
    subjects := [{ id := 1, userId := 2, name := "maths" }],
    sessions := dates.enum.map (fun p =>
      { id := p.1, userId := 2, subjectId := 1, hoursSpent := .ofNat 1,
        sessionDate := p.2 }) }

/-- C3 (amended): the study streak walks backward from today counting
consecutive days with at least one session of a subject owned by the
user, stops at the first gap, and is capped at 366 (the source's guard
`streak > 365` fires only after the increment, so the cap is reached at
366, not 365 as the claim states); sessions on {today, today-1, today-2}
give 3, on {today, today-1, today-3} give 2, none give 0, a future-dated
session never contributes (tomorrow plus today gives 1), and two
sessions on the same day count once. -/
theorem c3_streak_walkback_capped_366 :
    (∀ db today u, calculate_study_streak db today u = consecDays db u 366 today) ∧
    (∀ db today u, calculate_study_streak db today u ≤ 366) ∧
    calculate_study_streak (streakDB [1000, 999, 998]) 1000 2 = 3 ∧
    calculate_study_streak (streakDB [1000, 999, 997]) 1000 2 = 2 ∧
    calculate_study_streak DB.empty 1000 2 = 0 ∧
    calculate_study_streak (streakDB [1001, 1000]) 1000 2 = 1 ∧
    calculate_study_streak (streakDB [1000, 1000]) 1000 2 = 1 := by
  refine ⟨?_, ?_, by decide, by decide, by decide, by decide, by decide⟩
  · intro db today u
    simpa using streakLoop_eq_consecDays db u 366 0 today rfl (by omega)
  · intro db today u
    have h := streakLoop_eq_consecDays db u 366 0 today rfl (by omega)
    simp only [calculate_study_streak, h]
    simpa using consecDays_le db u 366 today

/-- Sessions on 366 consecutive days ending today. -/
def dbStreak366 : DB :=
  { DB.empty with
    subjects := [{ id := 1, userId := 2, name := "maths" }],
    sessions := (List.range 366).map (fun i =>
      { id := i, userId := 2, subjectId := 1, hoursSpent := .ofNat 1,
        sessionDate := 1000 - (i : Int) }) }

set_option maxRecDepth 40000 in
set_option maxHeartbeats 2000000 in
/-- C3 counterexample: the claim says the result never exceeds 365, but
with sessions on 366 consecutive days ending today the loop increments
to 366 before its `streak > 365` guard fires, so the streak is 366. -/
theorem c3_streak_reaches_366 :
    calculate_study_streak dbStreak366 1000 2 = 366 := by
  decide

/-! ## Alert rule engine -/

/-- Modelled from the spec: `parent_profile.get_children()` — the
parent's linked student references (§3 UserProfile). -/
def UserProfile.get_children (p : UserProfile) : List Nat := p.linkedStudents

/-- `ProgressAlert.objects.create(...)`: append a row with a fresh
primary key, `created_at` = now, unsent and unread. Usernames and
subject display names are not modelled; numeric ids stand in inside the
message text (no claim inspects message bodies). -/
def DB.createAlert (db : DB) (now : Int) (parent student : Nat)
    (alertType severity title message : String)
    (relatedSubject relatedRoadmap : Option Nat) : DB :=
  { db with
    alerts := db.alerts ++
      [{ id := db.nextAlertId, parent := parent, student := student,
         alertType := alertType, severity := severity, title := title,
         message := message, relatedSubject := relatedSubject,
         relatedRoadmap := relatedRoadmap, isSent := false, sentAt := none,
         isRead := false, readAt := none, createdAt := now }],
    nextAlertId := db.nextAlertId + 1 }

/-- Sequential per-row processing of a queryset, threading the store and
accumulating a count — the shape of every evaluator loop. -/
def foldCount {α : Type} (f : DB → α → DB × Nat) : DB → List α → DB × Nat
  | db, [] => (db, 0)
  | db, x :: xs =>
    let r1 := f db x
    let r2 := foldCount f r1.1 xs
    (r2.1, r1.2 + r2.2)

/-- A Python exception escaping an evaluator. -/
inductive PyExc where
  | typeError
deriving DecidableEq, Repr

/-- The outcome of a call that may raise. -/
inductive PyOutcome (α : Type) where
  | ok (a : α)
  | exc (e : PyExc)
deriving DecidableEq, Repr

/-! ### C1 — milestone alerts (`generate_milestone_alerts`, src/tracker/alerts.py lines 111-161) -/

/-- The list `milestones = [25, 50, 75, 100]` exactly as the source
orders it: ascending. -/
def milestones : List Nat := [25, 50, 75, 100]

/-- The `for milestone in milestones` loop for one roadmap: at the first
qualifying milestone with no existing alert whose title contains that
percentage marker, create one alert and `break`. -/
def milestoneScan (now : Int) (parent student : Nat) (rm : Roadmap)
    (progress : PyFloat) : DB → List Nat → DB × Nat
  | db, [] => (db, 0)
  | db, m :: rest =>
    if progress.ge (.ofNat m) then
      let existing := db.alerts.any (fun a =>
        a.parent == parent && a.student == student &&
        a.alertType == "milestone_achieved" &&
        a.relatedRoadmap == some rm.id &&
        strContains a.title (toString m ++ "%"))
      if existing then milestoneScan now parent student rm progress db rest
      else
        (db.createAlert now parent student "milestone_achieved" "success"
          ("🎉 " ++ toString m ++ "% milestone reached!")
          ("Great progress! " ++ toString student ++ " has completed " ++
            toString m ++ "% of their roadmap: " ++ rm.title ++ ".")
          (some rm.subjectId) (some rm.id), 1)
    else milestoneScan now parent student rm progress db rest

/-- `generate_milestone_alerts` (src/tracker/alerts.py lines 111-161). -/
def generate_milestone_alerts (now : Int) (db : DB) : DB × Nat :=
  foldCount (fun db p =>
    foldCount (fun db student =>
      let roadmaps := db.roadmaps.filter (fun r =>
        db.subjects.any (fun sub => sub.id == r.subjectId && sub.userId == student) &&
        r.isActive)
      foldCount (fun db rm =>
        let progress := Roadmap.calculate_overall_progress db rm.id
        milestoneScan now p.userId student rm progress db milestones)
        db roadmaps)
      db p.get_children)
    db (db.profiles.filter (fun p => p.role == "parent" && p.alertMilestones))

/-- Failing input for C1: milestone-enabled parent 1 of student 2, one
active roadmap at 60% progress (3 of 5 items done), no prior alerts. -/
def profC1 : UserProfile :=
  { baseProfile with userId := 1, alertMilestones := true, linkedStudents := [2] }

def dbC1 : DB :=
  { DB.empty with
    profiles := [profC1],
    subjects := [{ id := 1, userId := 2, name := "maths" }],
    roadmaps := [baseRoadmap],
    steps := [baseStep],
    checklistItems :=
      [{ baseItem with id := 1, isCompleted := true, completedAt := some 0 },
       { baseItem with id := 2, isCompleted := true, completedAt := some 0 },
       { baseItem with id := 3, isCompleted := true, completedAt := some 0 },
       { baseItem with id := 4 },
       { baseItem with id := 5 }] }

/-- C1: the claim requires the thresholds to be checked from highest to
lowest so that 60% progress yields exactly the 50% milestone alert and a
re-run creates nothing. The source iterates `[25, 50, 75, 100]`
ascending and breaks after the first creation — contradicting its own
`Only alert for the HIGHEST milestone reached` comment: at 60% the first
run creates the 25% alert, and a second run at unchanged progress
creates a further (50%) alert. -/
theorem c1_milestone_lowest_fires_and_rerun_creates_more :
    (generate_milestone_alerts 0 dbC1).2 = 1 ∧
    (generate_milestone_alerts 0 dbC1).1.alerts.map (·.title) =
      ["🎉 25% milestone reached!"] ∧
    (generate_milestone_alerts 1 (generate_milestone_alerts 0 dbC1).1).2 = 1 ∧
    (generate_milestone_alerts 1 (generate_milestone_alerts 0 dbC1).1).1.alerts.map (·.title) =
      ["🎉 25% milestone reached!", "🎉 50% milestone reached!"] := by
  decide

/-! ### C7 — goal-at-risk alerts (`generate_goal_at_risk_alerts`, src/tracker/alerts.py lines 60-109) -/

/-- Modelled from the spec: `TermGoal.calculate_progress`, called by the
evaluator but absent from the stale src/tracker/models.py — per §9 the
roadmap-level `overall_progress` of the goal's subject's active roadmap,
0% when there is no active roadmap. -/
def TermGoal.calculate_progress (db : DB) (g : TermGoal) : PyFloat :=
  match db.activeRoadmap g.subjectId with
  | none => .ofNat 0
  | some rm => Roadmap.calculate_overall_progress db rm.id

/-- The body run for one parent profile: students → goals with
`deadline >= today` → threshold window → progress below 50% →
48h suppression keyed on `related_subject` → create. The created row —
exactly as in the source — does NOT set `related_subject`. -/
def goalAtRiskForParent (now : Int) (db : DB) (p : UserProfile) : DB × Nat :=
  let today := dayOf now
  foldCount (fun db student =>
    let goals := db.termGoals.filter (fun g =>
      db.subjects.any (fun sub => sub.id == g.subjectId && sub.userId == student) &&
      g.deadline ≥ today)
    foldCount (fun db g =>
      let daysUntil := g.deadline - today
      let threshold := p.alertGoalAtRiskDays
      if daysUntil ≤ threshold && daysUntil > 0 then
        let progress := g.calculate_progress db
        if progress.lt (.ofNat 50) then
          let recent := db.alerts.any (fun a =>
            a.parent == p.userId && a.student == student &&
            a.alertType == "goal_at_risk" &&
            a.relatedSubject == some g.subjectId &&
            a.createdAt ≥ now - 48)
          if recent then (db, 0)
          else
            (db.createAlert now p.userId student "goal_at_risk" "warning"
              ("Goal at risk: " ++ toString g.subjectId)
              (toString student ++ " goal is at risk. Only " ++
                toString daysUntil ++ " days left.")
              none none, 1)
        else (db, 0)
      else (db, 0))
      db goals)
    db p.get_children

/-- `generate_goal_at_risk_alerts` (src/tracker/alerts.py lines 60-109).
The source's `return alerts_created` sits INSIDE the parent loop, so
only the first matching parent profile is processed; with no matching
profile the function falls through and returns `None`. -/
def generate_goal_at_risk_alerts (now : Int) (db : DB) : DB × Option Nat :=
  match db.profiles.filter (fun p => p.role == "parent" && p.alertGoalAtRisk) with
  | [] => (db, none)
  | p :: _ =>
    let r := goalAtRiskForParent now db p
    (r.1, some r.2)

/-- Failing input for C7: two goal-at-risk-enabled parents (1 and 3),
each with a student (2 and 4) holding a qualifying at-risk goal. -/
def profC7a : UserProfile :=
  { baseProfile with userId := 1, alertGoalAtRisk := true, linkedStudents := [2] }

def profC7b : UserProfile :=
  { baseProfile with userId := 3, alertGoalAtRisk := true, linkedStudents := [4] }

def dbC7 : DB :=
  { DB.empty with
    profiles := [profC7a, profC7b],
    subjects := [{ id := 1, userId := 2, name := "maths" },
                 { id := 2, userId := 4, name := "english" }],
    termGoals :=
      [{ id := 1, subjectId := 1, currentLevel := "4", targetLevel := "7",
         term := "spring_2026", deadline := 3 },
       { id := 2, subjectId := 2, currentLevel := "4", targetLevel := "7",
         term := "spring_2026", deadline := 3 }] }

/-- C7: the claim says every enabled parent profile is iterated and the
returned value counts alerts across all of them. On `dbC7` (two enabled
parents, each with one qualifying goal) the claim demands 2 alerts; the
mis-indented `return` makes the source stop after the first parent:
exactly one alert is created, none for parent 3 — and with no enabled
profile at all the function returns `None` instead of a count. -/
theorem c7_returns_after_first_parent :
    (generate_goal_at_risk_alerts 0 dbC7).2 = some 1 ∧
    (generate_goal_at_risk_alerts 0 dbC7).1.alerts.countP
      (fun a => a.alertType == "goal_at_risk") = 1 ∧
    (generate_goal_at_risk_alerts 0 dbC7).1.alerts.countP
      (fun a => a.parent == 3) = 0 ∧
    (generate_goal_at_risk_alerts 0 { dbC7 with profiles := [] }).2 = none := by
  decide

/-! ### The remaining evaluators (src/tracker/alerts.py) -/

/-- `generate_low_activity_alerts` (src/tracker/alerts.py lines 13-58):
days since the most recent session (999 if none), threshold from the
profile, 24h suppression per (parent, student). -/
def generate_low_activity_alerts (now : Int) (db : DB) : DB × Nat :=
  let today := dayOf now
  foldCount (fun db p =>
    foldCount (fun db student =>
      let dates := (db.sessions.filter (fun s =>
        db.subjects.any (fun sub => sub.id == s.subjectId && sub.userId == student))).map
        (·.sessionDate)
      let lastDate := dates.foldl (fun acc d =>
        match acc with
        | none => some d
        | some m => some (max m d)) none
      let daysSince : Int := match lastDate with
        | some d => today - d
        | none => 999
      if daysSince ≥ p.alertLowActivityDays then
        let recent := db.alerts.any (fun a =>
          a.parent == p.userId && a.student == student &&
          a.alertType == "low_activity" && a.createdAt ≥ now - 24)
        if recent then (db, 0)
        else
          (db.createAlert now p.userId student "low_activity" "warning"
            (toString student ++ " has not studied recently")
            (toString student ++ " has not logged any study sessions in the last " ++
              toString daysSince ++ " days.")
            none none, 1)
      else (db, 0))
      db p.get_children)
    db (db.profiles.filter (fun p => p.role == "parent" && p.alertLowActivity))

/-- `generate_roadmap_completed_alerts` (src/tracker/alerts.py lines
163-202): every roadmap of the student (active or not) at exactly 100%
overall progress, suppressed forever by an existing alert of this type
for the same (parent, student, roadmap). -/
def generate_roadmap_completed_alerts (now : Int) (db : DB) : DB × Nat :=
  foldCount (fun db p =>
    foldCount (fun db student =>
      let roadmaps := db.roadmaps.filter (fun r =>
        db.subjects.any (fun sub => sub.id == r.subjectId && sub.userId == student))
      foldCount (fun db rm =>
        if (Roadmap.calculate_overall_progress db rm.id).eqv (.ofNat 100) then
          let existing := db.alerts.any (fun a =>
            a.parent == p.userId && a.student == student &&
            a.alertType == "roadmap_completed" && a.relatedRoadmap == some rm.id)
          if existing then (db, 0)
          else
            (db.createAlert now p.userId student "roadmap_completed" "success"
              "🎉 Roadmap completed"
              ("Congratulations! " ++ toString student ++
                " has completed their roadmap: " ++ rm.title ++ ". All " ++
                toString (Roadmap.get_total_items db rm.id) ++ " tasks are done!")
              (some rm.subjectId) (some rm.id), 1)
        else (db, 0))
        db roadmaps)
      db p.get_children)
    db (db.profiles.filter (fun p => p.role == "parent" && p.alertRoadmapCompleted))

/-- `generate_streak_broken_alerts` (src/tracker/alerts.py lines 204-247).
Every `ProgressAlert.objects.create` call in this evaluator passes the
misspelled keyword `studnet=student`, which raises `TypeError` inside
`Model.__init__` before any row is written. Hence the evaluator either
completes with no trigger reaching a create (returning 0, store
unchanged) or raises at the first non-suppressed trigger (store
unchanged). -/
def generate_streak_broken_alerts (now : Int) (db : DB) : PyOutcome (DB × Nat) :=
  let today := dayOf now
  let yesterday := today - 1
  let triggered := (db.profiles.filter (fun p =>
      p.role == "parent" && p.alertStreakBroken)).any (fun p =>
    p.get_children.any (fun student =>
      let studiedYesterday := db.sessions.any (fun s =>
        db.subjects.any (fun sub => sub.id == s.subjectId && sub.userId == student) &&
        s.sessionDate == yesterday)
      let studiedToday := db.sessions.any (fun s =>
        db.subjects.any (fun sub => sub.id == s.subjectId && sub.userId == student) &&
        s.sessionDate == today)
      let recent := db.alerts.any (fun a =>
        a.parent == p.userId && a.student == student &&
        a.alertType == "streak_broken" && dayOf a.createdAt == today)
      studiedYesterday && !studiedToday && !recent))
  if triggered then .exc .typeError else .ok (db, 0)

/-- `generate_new_feedback_alerts` (src/tracker/alerts.py lines 249-291):
feedback created within the last 24 hours, suppressed by an alert of
this type for the same (parent, student, subject) within that window. -/
def generate_new_feedback_alerts (now : Int) (db : DB) : DB × Nat :=
  let yesterday := now - 24
  foldCount (fun db p =>
    foldCount (fun db student =>
      let newFeedbacks := db.feedbacks.filter (fun f =>
        db.subjects.any (fun sub => sub.id == f.subjectId && sub.userId == student) &&
        f.createdAt ≥ yesterday)
      foldCount (fun db f =>
        let existing := db.alerts.any (fun a =>
          a.parent == p.userId && a.student == student &&
          a.alertType == "new_feedback" &&
          a.relatedSubject == some f.subjectId &&
          a.createdAt ≥ yesterday)
        if existing then (db, 0)
        else
          (db.createAlert now p.userId student "new_feedback" "info"
            ("New teacher feedback: " ++ toString f.subjectId)
            ("New feedback has been added for " ++ toString student ++ ".")
            (some f.subjectId) none, 1))
        db newFeedbacks)
      db p.get_children)
    db (db.profiles.filter (fun p => p.role == "parent" && p.alertNewFeedback))

/-! ### C6 — orchestration (`generate_all_alerts`, src/tracker/alerts.py lines 384-395) -/

/-- `generate_all_alerts`: the six evaluators in the source's fixed
order, each `total += ...` in turn, with no exception handling. When
`generate_goal_at_risk_alerts` returns `None` (no enabled parent
profile) the addition `total += None` raises `TypeError`; an exception
from `generate_streak_broken_alerts` propagates; in both cases the
remaining evaluators never run. -/
def generate_all_alerts (now : Int) (db : DB) : DB × PyOutcome Nat :=
  let r1 := generate_low_activity_alerts now db
  match generate_goal_at_risk_alerts now r1.1 with
  | (db2, none) => (db2, .exc .typeError)
  | (db2, some c2) =>
    let r3 := generate_milestone_alerts now db2
    let r4 := generate_roadmap_completed_alerts now r3.1
    match generate_streak_broken_alerts now r4.1 with
    | .exc e => (r4.1, .exc e)
    | .ok (db5, c5) =>
      let r6 := generate_new_feedback_alerts now db5
      (r6.1, .ok (r1.2 + c2 + r3.2 + r4.2 + c5 + r6.2))

/-- C6 (amended): `generate_all_alerts` runs the six evaluators in the
fixed order low_activity, goal_at_risk, milestone_achieved,
roadmap_completed, streak_broken, new_feedback and, when every evaluator
completes normally, returns the sum of their created-alert counts; but
there is no exception isolation: a `None` from the goal evaluator (no
enabled parent profile) or an exception from the streak evaluator
propagates and the remaining evaluators never run. -/
theorem c6_fixed_order_and_exception_propagation (now : Int) (db : DB) :
    (∀ db2 c2 db5 c5,
      generate_goal_at_risk_alerts now (generate_low_activity_alerts now db).1 =
        (db2, some c2) →
      generate_streak_broken_alerts now
        (generate_roadmap_completed_alerts now (generate_milestone_alerts now db2).1).1 =
        .ok (db5, c5) →
      generate_all_alerts now db =
        ((generate_new_feedback_alerts now db5).1,
         .ok ((generate_low_activity_alerts now db).2 + c2 +
              (generate_milestone_alerts now db2).2 +
              (generate_roadmap_completed_alerts now
                (generate_milestone_alerts now db2).1).2 +
              c5 + (generate_new_feedback_alerts now db5).2))) ∧
    (∀ db2,
      generate_goal_at_risk_alerts now (generate_low_activity_alerts now db).1 =
        (db2, none) →
      generate_all_alerts now db = (db2, .exc .typeError)) ∧
    (∀ db2 c2 e,
      generate_goal_at_risk_alerts now (generate_low_activity_alerts now db).1 =
        (db2, some c2) →
      generate_streak_broken_alerts now
        (generate_roadmap_completed_alerts now (generate_milestone_alerts now db2).1).1 =
        .exc e →
      generate_all_alerts now db =
        ((generate_roadmap_completed_alerts now (generate_milestone_alerts now db2).1).1,
         .exc e)) := by
  refine ⟨?_, ?_, ?_⟩
  · intro db2 c2 db5 c5 h2 h5
    simp only [generate_all_alerts, h2, h5]
  · intro db2 h2
    simp only [generate_all_alerts, h2]
  · intro db2 c2 e h2 h5
    simp only [generate_all_alerts, h2, h5]

/-- Witness for C6: on `dbC7` every evaluator completes normally (one
goal-at-risk alert is created) and the orchestrator returns the total 1. -/
theorem c6_fixed_order_witness :
    generate_all_alerts 0 dbC7 =
      ((generate_new_feedback_alerts 0
         (generate_roadmap_completed_alerts 0
           (generate_milestone_alerts 0
             (generate_goal_at_risk_alerts 0
               (generate_low_activity_alerts 0 dbC7).1).1).1).1).1,
       .ok 1) := by
  have h := (c6_fixed_order_and_exception_propagation 0 dbC7).1
    (generate_goal_at_risk_alerts 0 (generate_low_activity_alerts 0 dbC7).1).1 1
    (generate_roadmap_completed_alerts 0
      (generate_milestone_alerts 0
        (generate_goal_at_risk_alerts 0
          (generate_low_activity_alerts 0 dbC7).1).1).1).1 0
    (by decide) (by decide)
  exact h.trans (by decide)

def profC6 : UserProfile :=
  { baseProfile with
    userId := 1, alertGoalAtRisk := true, alertStreakBroken := true,
    alertNewFeedback := true, linkedStudents := [2] }

/-- Counterexample input for C6: the streak evaluator triggers (session
yesterday, none today) and so raises; a fresh feedback row would make
the feedback evaluator create an alert — if it ever ran. -/
def dbC6 : DB :=
  { DB.empty with
    profiles := [profC6],
    subjects := [{ id := 1, userId := 2, name := "maths" }],
    sessions := [{ id := 1, userId := 2, subjectId := 1,
                   hoursSpent := .ofNat 2, sessionDate := 3 }],
    feedbacks := [{ id := 1, subjectId := 1, createdAt := 90 }] }

/-- C6 counterexample: the claim says an exception in one evaluator does
not abort the remaining evaluators. On `dbC6` (at now = 100, today = 4)
the streak evaluator raises `TypeError` (the `studnet=` keyword), the
orchestrator surfaces the exception with no alert rows written, and the
new_feedback evaluator — which would have created one alert — never ran. -/
theorem c6_exception_aborts_remaining_evaluators :
    (generate_all_alerts 100 dbC6).2 = .exc .typeError ∧
    (generate_all_alerts 100 dbC6).1.alerts = [] ∧
    (generate_new_feedback_alerts 100 (generate_all_alerts 100 dbC6).1).2 = 1 := by
  decide

/-! ## C8 / C10 — notification dispatcher (`send_alert_emails`, src/tracker/alerts.py lines 293-382) -/

/-- The `should_send` computation (src/tracker/alerts.py lines 317-326):
`immediate` always (the source's `should_send = True,` builds the truthy
tuple `(True,)`), `daily` when no prior dispatch or
`(now - last_sent).days >= 1`, `weekly` likewise with 7; any other
frequency value leaves `should_send` False. -/
def should_send (p : UserProfile) (now : Int) : Bool :=
  if p.alertFrequency == "immediate" then true
  else if p.alertFrequency == "daily" then
    match p.lastAlertSent with
    | none => true
    | some t => decide (Int.fdiv (now - t) 24 ≥ 1)
  else if p.alertFrequency == "weekly" then
    match p.lastAlertSent with
    | none => true
    | some t => decide (Int.fdiv (now - t) 24 ≥ 7)
  else false

/-- The loop body of `send_alert_emails` for one parent profile: gather
unsent alerts (skip when none), apply the frequency gate, skip when the
user has no email address, attempt the transport, and only on success
mark every gathered alert sent and stamp `last_alert_sent`. The
`transport` oracle models the external mail boundary (success/failure
per recipient). -/
def processParentEmail (transport : Nat → Bool) (now : Int) (db : DB)
    (p : UserProfile) : DB × Nat :=
  let unsent := db.alerts.filter (fun a => a.parent == p.userId && !a.isSent)
  if unsent.isEmpty then (db, 0)
  else if should_send p now then
    if p.email == "" then (db, 0)
    else if transport p.userId then
      ({ db with
          alerts := db.alerts.map (fun a =>
            if a.parent == p.userId && !a.isSent then
              { a with isSent := true, sentAt := some now }
            else a),
          profiles := db.profiles.map (fun q =>
            if q.userId == p.userId then { q with lastAlertSent := some now }
            else q) },
       1)
    else (db, 0)
  else (db, 0)

/-- `send_alert_emails` (src/tracker/alerts.py lines 293-382): every
parent profile with email notifications enabled is processed in turn;
a transport failure for one recipient is caught (`except ... continue`)
and does not stop the loop. -/
def send_alert_emails (transport : Nat → Bool) (now : Int) (db : DB) : DB × Nat :=
  foldCount (fun db p => processParentEmail transport now db p) db
    (db.profiles.filter (fun p => p.role == "parent" && p.emailNotifications))

/-- The frequency gate as the claim words it: `immediate` always sends;
`daily` iff no recorded dispatch or at least 1 day (24 h) has elapsed;
`weekly` iff none or at least 7 days (168 h) have elapsed. -/
def shouldSendSpec (p : UserProfile) (now : Int) : Bool :=
  if p.alertFrequency == "immediate" then true
  else if p.alertFrequency == "daily" then
    match p.lastAlertSent with
    | none => true
    | some t => decide (now - t ≥ 24)
  else if p.alertFrequency == "weekly" then
    match p.lastAlertSent with
    | none => true
    | some t => decide (now - t ≥ 168)
  else false

theorem should_send_eq_spec (p : UserProfile) (now : Int) :
    should_send p now = shouldSendSpec p now := by
  have h24 : ∀ t : Int, Int.fdiv (now - t) 24 = (now - t) / 24 :=
    fun t => Int.fdiv_eq_ediv _ (by decide)
  unfold should_send shouldSendSpec
  rcases p.lastAlertSent with _ | t
  · rfl
  · by_cases h1 : p.alertFrequency == "immediate" <;>
      by_cases h2 : p.alertFrequency == "daily" <;>
        by_cases h3 : p.alertFrequency == "weekly" <;>
          simp only [h1, h2, h3, Bool.false_eq_true, if_true, if_false,
            decide_eq_decide, h24] <;> omega

/-- A transport oracle that always succeeds. -/
def alwaysOk : Nat → Bool := fun _ => true

def profWeekly (last : Option Int) : UserProfile :=
  { baseProfile with
    userId := 1, emailNotifications := true, email := "parent@example.com",
    alertFrequency := "weekly", lastAlertSent := last }

/-- A weekly parent with one unsent alert and the given last dispatch. -/
def dbWeekly (last : Option Int) : DB :=
  { DB.empty with
    profiles := [profWeekly last],
    alerts := [{ baseAlert with parent := 1 }] }

def profIso1 : UserProfile :=
  { baseProfile with
    userId := 1, emailNotifications := true, email := "a@example.com",
    alertFrequency := "immediate" }

def profIso3 : UserProfile :=
  { baseProfile with
    userId := 3, emailNotifications := true, email := "b@example.com",
    alertFrequency := "immediate" }

/-- Two immediate-frequency parents, one unsent alert each. -/
def dbIso : DB :=
  { DB.empty with
    profiles := [profIso1, profIso3],
    alerts := [{ baseAlert with id := 1, parent := 1 },
               { baseAlert with id := 2, parent := 3 }] }

/-- C8 (amended): for every parent profile with email notifications
enabled, at least one unsent alert AND a nonempty email address, the
dispatcher sends iff the frequency preference allows it (immediate
always; daily iff no recorded dispatch or ≥ 1 day elapsed; weekly iff
none or ≥ 7 days) and the transport succeeds; only on transport success
are all gathered unsent alerts marked sent and the last-dispatch
timestamp updated, and a transport failure (or skip) leaves the store
untouched. Concretely: a weekly parent last dispatched 3 days ago gets
no email, the same parent at 8 days does, and one recipient's transport
failure does not prevent the next parent from being processed. -/
theorem c8_dispatch_frequency_gate (transport : Nat → Bool) (now : Int)
    (db : DB) (p : UserProfile)
    (hun : db.alerts.filter (fun a => a.parent == p.userId && !a.isSent) ≠ [])
    (hemail : p.email ≠ "") :
    ((processParentEmail transport now db p).2 =
      if shouldSendSpec p now && transport p.userId then 1 else 0) ∧
    (shouldSendSpec p now = false →
      processParentEmail transport now db p = (db, 0)) ∧
    (transport p.userId = false →
      processParentEmail transport now db p = (db, 0)) ∧
    (shouldSendSpec p now = true → transport p.userId = true →
      processParentEmail transport now db p =
        ({ db with
            alerts := db.alerts.map (fun a =>
              if a.parent == p.userId && !a.isSent then
                { a with isSent := true, sentAt := some now }
              else a),
            profiles := db.profiles.map (fun q =>
              if q.userId == p.userId then { q with lastAlertSent := some now }
              else q) },
         1)) ∧
    send_alert_emails alwaysOk 1000 (dbWeekly (some 928)) =
      (dbWeekly (some 928), 0) ∧
    (send_alert_emails alwaysOk 1000 (dbWeekly (some 808))).2 = 1 ∧
    (send_alert_emails alwaysOk 1000 (dbWeekly (some 808))).1.alerts.all
      (·.isSent) = true ∧
    (send_alert_emails (fun u => u == 3) 0 dbIso).2 = 1 ∧
    (send_alert_emails (fun u => u == 3) 0 dbIso).1.alerts.all
      (fun a => a.isSent == (a.parent == 3)) = true := by
  have hE : (db.alerts.filter
      (fun a => a.parent == p.userId && !a.isSent)).isEmpty = false := by
    cases hE : (db.alerts.filter (fun a => a.parent == p.userId && !a.isSent)).isEmpty
    · rfl
    · exact absurd (List.isEmpty_iff.mp hE) hun
  have hEm : (p.email == "") = false := by
    cases hEm : p.email == ""
    · rfl
    · exact absurd (by simpa using hEm) hemail
  refine ⟨?_, ?_, ?_, ?_, by decide, by decide, by decide, by decide, by decide⟩
  · simp only [processParentEmail, should_send_eq_spec, hE, Bool.false_eq_true,
      if_false, hEm]
    cases hS : shouldSendSpec p now <;> cases hT : transport p.userId <;> simp
  · intro hS
    simp [processParentEmail, should_send_eq_spec, hE, hS, hEm]
  · intro hT
    simp only [processParentEmail, should_send_eq_spec, hE, Bool.false_eq_true,
      if_false, hEm, hT]
    cases hS : shouldSendSpec p now <;> simp
  · intro hS hT
    simp [processParentEmail, should_send_eq_spec, hE, hS, hEm, hT]

/-- Witness for C8: the 8-days-ago weekly parent has an unsent alert and
an email address, and the per-parent step sends exactly one email. -/
theorem c8_dispatch_frequency_gate_witness :
    (dbWeekly (some 808)).alerts.filter
      (fun a => a.parent == (profWeekly (some 808)).userId && !a.isSent) ≠ [] ∧
    (profWeekly (some 808)).email ≠ "" ∧
    (processParentEmail alwaysOk 1000 (dbWeekly (some 808))
      (profWeekly (some 808))).2 =
      (if shouldSendSpec (profWeekly (some 808)) 1000 &&
          alwaysOk (profWeekly (some 808)).userId then 1 else 0) :=
  ⟨by decide, by decide,
   (c8_dispatch_frequency_gate alwaysOk 1000 (dbWeekly (some 808))
     (profWeekly (some 808)) (by decide) (by decide)).1⟩

def profC8no : UserProfile :=
  { baseProfile with
    userId := 1, emailNotifications := true, alertFrequency := "immediate",
    email := "" }

/-- An immediate-frequency parent with one unsent alert but no email
address on the account. -/
def dbC8no : DB :=
  { DB.empty with
    profiles := [profC8no],
    alerts := [{ baseAlert with parent := 1 }] }

/-- C8 counterexample: as stated, the claim says a parent with email
notifications enabled and an unsent alert is sent to iff the frequency
preference allows it; here the frequency (immediate) allows it, yet no
email is sent and nothing is marked, because the account has no email
address. -/
theorem c8_frequency_allows_but_no_email_no_send :
    shouldSendSpec profC8no 0 = true ∧
    send_alert_emails alwaysOk 0 dbC8no = (dbC8no, 0) := by
  decide

/-- C10: a parent profile whose user account has no email address is
skipped entirely by the per-parent dispatch step: the store is returned
unchanged (every gathered alert stays unsent, the last-dispatch
timestamp stays put), the parent contributes 0 to the emails-sent
count, and the result does not depend on the transport oracle at all —
no email is even attempted. -/
theorem c10_missing_email_skips_parent (t1 t2 : Nat → Bool) (now : Int)
    (db : DB) (p : UserProfile) (hemail : p.email = "") :
    processParentEmail t1 now db p = (db, 0) ∧
    processParentEmail t1 now db p = processParentEmail t2 now db p := by
  have hEm : (p.email == "") = true := by simp [hemail]
  have hbody : ∀ t : Nat → Bool, processParentEmail t now db p = (db, 0) := by
    intro t
    simp only [processParentEmail, hEm, if_true]
    split
    · rfl
    · split
      · rfl
      · rfl
  exact ⟨hbody t1, (hbody t1).trans (hbody t2).symm⟩

/-- Witness for C10: the concrete no-email parent of `dbC8no` is
skipped with the store unchanged. -/
theorem c10_missing_email_skips_parent_witness :
    profC8no.email = "" ∧
    processParentEmail alwaysOk 0 dbC8no profC8no = (dbC8no, 0) :=
  ⟨rfl, (c10_missing_email_skips_parent alwaysOk (fun _ => false) 0 dbC8no
    profC8no rfl).1⟩

/-! ## C9 — checklist toggle (`toggle_checklist_item`, src/tracker/views.py lines 738-788) -/

/-- The JSON payload of `toggle_checklist_item` (the fields the claims
inspect; counts omitted). Progress fields hold the rounded values the
view returns. -/
structure ToggleResponse where
  is_completed : Bool
  completed_at : Option Int
  step_progress : PyFloat
  roadmap_progress : PyFloat
deriving DecidableEq, Repr

/-- The `get_object_or_404` lookup with the ownership join
`roadmap_step__roadmap__subject__user=request.user`; `none` is the 404
outcome. -/
def findOwnedItem (db : DB) (userId pk : Nat) : Option ChecklistItem :=
  db.checklistItems.find? (fun c =>
    c.id == pk &&
    db.steps.any (fun st => st.id == c.stepId &&
      db.roadmaps.any (fun r => r.id == st.roadmapId &&
        db.subjects.any (fun sub => sub.id == r.subjectId && sub.userId == userId))))

/-- The view's step progress (src/tracker/views.py lines 762-766, 782):
`(step_completed / step_total * 100) if step_total > 0 else 0`,
rounded to 1 decimal in the JSON response. -/
def viewStepProgress (db : DB) (stepId : Nat) : PyFloat :=
  let items := db.stepItems stepId
  PyFloat.round1 (if items.length > 0 then
    ((PyFloat.ofNat (items.countP (·.isCompleted))).divByNat items.length).mulNat 100
  else .ofNat 0)

/-- The view's roadmap progress (src/tracker/views.py lines 768-775,
785): completed checklist items over all the roadmap's items, rounded
to 1 decimal in the JSON response. -/
def viewRoadmapProgress (db : DB) (roadmapId : Nat) : PyFloat :=
  let items := db.roadmapItems roadmapId
  PyFloat.round1 (if items.length > 0 then
    ((PyFloat.ofNat (items.countP (·.isCompleted))).divByNat items.length).mulNat 100
  else .ofNat 0)

/-- `toggle_checklist_item`: flip the item's `is_completed`, stamp or
clear `completed_at`, save, then compute step and roadmap progress over
the saved state. The inner `none` branch (checklist item whose step row
is missing) is unreachable through the ownership join, which requires a
matching step. -/
def toggle_checklist_item (now : Int) (db : DB) (userId pk : Nat) :
    Option (DB × ToggleResponse) :=
  match findOwnedItem db userId pk with
  | none => none
  | some it =>
    let newCompleted := !it.isCompleted
    let newAt : Option Int := if newCompleted then some now else none
    let db1 : DB :=
      { db with
        checklistItems := db.checklistItems.map (fun c =>
          if c.id == pk then
            { c with isCompleted := newCompleted, completedAt := newAt }
          else c) }
    match db1.steps.find? (fun st => st.id == it.stepId) with
    | none => none
    | some step =>
      some (db1,
        { is_completed := newCompleted,
          completed_at := newAt,
          step_progress := viewStepProgress db1 step.id,
          roadmap_progress := viewRoadmapProgress db1 step.roadmapId })

theorem find?_map_congr {α : Type} (g : α → α) (q : α → Bool)
    (hg : ∀ c, q (g c) = q c) :
    ∀ l : List α, (l.map g).find? q = (l.find? q).map g := by
  intro l
  induction l with
  | nil => rfl
  | cons c t ih =>
    simp only [List.map_cons, List.find?_cons]
    rw [hg c]
    cases hqc : q c
    · simpa [hqc] using ih
    · simp [hqc]

theorem pyfloat_eqv_refl (a : PyFloat) : a.eqv a = true := by
  simp [PyFloat.eqv]

/-- The view's roadmap-progress value agrees with the spec's
`overall_progress` metric (they differ only in which side of the
zero-items guard the rounding sits on). -/
theorem viewRoadmapProgress_eqv_overall (db : DB) (rm : Nat) :
    (viewRoadmapProgress db rm).eqv (Roadmap.calculate_overall_progress db rm) = true := by
  unfold viewRoadmapProgress Roadmap.calculate_overall_progress PyFloat.pct
  by_cases h : (db.roadmapItems rm).length = 0
  · simp only [h, gt_iff_lt, Nat.lt_irrefl, if_false, if_true]
    decide
  · have hpos : (db.roadmapItems rm).length > 0 := Nat.pos_of_ne_zero h
    simp only [h, gt_iff_lt, hpos, if_true, if_false]
    exact pyfloat_eqv_refl _

/-- Looking an item up after the toggle's single-row update: the update
changes neither primary keys nor foreign keys, so the lookup finds the
updated row. -/
theorem findOwnedItem_update (db : DB) (userId pk : Nat) (b : Bool) (t : Option Int) :
    findOwnedItem
      { db with checklistItems := db.checklistItems.map (fun c =>
          if c.id == pk then { c with isCompleted := b, completedAt := t } else c) }
      userId pk =
    (findOwnedItem db userId pk).map (fun c =>
      if c.id == pk then { c with isCompleted := b, completedAt := t } else c) := by
  unfold findOwnedItem
  exact find?_map_congr _ _ (fun c => by by_cases hc : c.id == pk <;> simp [hc]) _

/-- The toggle's row update keeps the completed_at/is_completed
invariant when the written pair satisfies it. -/
theorem toggle_update_preserves_inv (db : DB) (pk : Nat) (b : Bool)
    (t : Option Int) (ht : t.isSome = b)
    (hinv : ∀ c ∈ db.checklistItems, c.completedAt.isSome = c.isCompleted) :
    ∀ c ∈ db.checklistItems.map (fun c =>
      if c.id == pk then { c with isCompleted := b, completedAt := t } else c),
      c.completedAt.isSome = c.isCompleted := by
  intro c hc
  obtain ⟨c0, hc0, rfl⟩ := List.mem_map.mp hc
  by_cases h : c0.id == pk <;> simp [h, ht, hinv c0 hc0]

/-- Toggling on then off restores the table, provided every row with
this primary key started incomplete with a null timestamp. -/
theorem toggle_update_restore (pk : Nat) (n1 : Int) :
    ∀ l : List ChecklistItem,
      (∀ c ∈ l, c.id = pk → c.isCompleted = false ∧ c.completedAt = none) →
      (l.map (fun c =>
        if c.id == pk then { c with isCompleted := true, completedAt := some n1 }
        else c)).map (fun c =>
          if c.id == pk then { c with isCompleted := false, completedAt := none }
          else c) = l := by
  intro l
  induction l with
  | nil => intro _; rfl
  | cons a t ih =>
    intro hall
    simp only [List.map_cons, List.cons.injEq]
    refine ⟨?_, ih (fun c hc hcp => hall c (by simp [hc]) hcp)⟩
    by_cases h : a.id == pk
    · obtain ⟨h1, h2⟩ := hall a (by simp) (by simpa using h)
      cases a
      simp_all
    · simp [h]

/-- C9: toggling a checklist item to completed and toggling it again
restores is_completed to false and completed_at to null, the store
returns to exactly its pre-toggle state, the roadmap's overall_progress
returns to its pre-toggle value, and completed_at is non-null iff
is_completed throughout. -/
theorem c9_toggle_round_trip (db : DB) (userId pk : Nat) (n1 n2 : Int)
    (it : ChecklistItem)
    (hfind : findOwnedItem db userId pk = some it)
    (hall : ∀ c ∈ db.checklistItems, c.id = pk →
      c.isCompleted = false ∧ c.completedAt = none)
    (hinv : ∀ c ∈ db.checklistItems, c.completedAt.isSome = c.isCompleted) :
    ∃ db1 r1 db2 r2,
      toggle_checklist_item n1 db userId pk = some (db1, r1) ∧
      toggle_checklist_item n2 db1 userId pk = some (db2, r2) ∧
      r1.is_completed = true ∧ r1.completed_at = some n1 ∧
      r2.is_completed = false ∧ r2.completed_at = none ∧
      db2 = db ∧
      (∀ c ∈ db1.checklistItems, c.completedAt.isSome = c.isCompleted) ∧
      ∃ step, db.steps.find? (fun st => st.id == it.stepId) = some step ∧
        r2.roadmap_progress.eqv
          (Roadmap.calculate_overall_progress db step.roadmapId) = true := by
  have hmem : it ∈ db.checklistItems := List.mem_of_find?_eq_some hfind
  have hq := List.find?_some hfind
  rw [Bool.and_eq_true] at hq
  have hidp : it.id = pk := by simpa using hq.1
  obtain ⟨hitc, hita⟩ := hall it hmem hidp
  have hany := hq.2
  rw [List.any_eq_true] at hany
  obtain ⟨st0, hst0mem, hst0⟩ := hany
  rw [Bool.and_eq_true] at hst0
  have hsome : (db.steps.find? (fun st => st.id == it.stepId)).isSome :=
    List.find?_isSome.mpr ⟨st0, hst0mem, hst0.1⟩
  obtain ⟨step, hstep⟩ := Option.isSome_iff_exists.mp hsome
  have hrestore :
      (db.checklistItems.map (fun c =>
        if c.id == pk then { c with isCompleted := true, completedAt := some n1 }
        else c)).map (fun c =>
          if c.id == pk then { c with isCompleted := false, completedAt := none }
          else c) = db.checklistItems :=
    toggle_update_restore pk n1 db.checklistItems hall
  refine ⟨{ db with checklistItems := db.checklistItems.map (fun c =>
      if c.id == pk then { c with isCompleted := true, completedAt := some n1 }
      else c) },
    { is_completed := true, completed_at := some n1,
      step_progress := viewStepProgress
        { db with checklistItems := db.checklistItems.map (fun c =>
            if c.id == pk then { c with isCompleted := true, completedAt := some n1 }
            else c) } step.id,
      roadmap_progress := viewRoadmapProgress
        { db with checklistItems := db.checklistItems.map (fun c =>
            if c.id == pk then { c with isCompleted := true, completedAt := some n1 }
            else c) } step.roadmapId },
    db,
    { is_completed := false, completed_at := none,
      step_progress := viewStepProgress db step.id,
      roadmap_progress := viewRoadmapProgress db step.roadmapId },
    ?_, ?_, rfl, rfl, rfl, rfl, rfl, ?_,
    step, hstep, viewRoadmapProgress_eqv_overall db step.roadmapId⟩
  · -- first toggle evaluates
    unfold toggle_checklist_item
    rw [hfind]
    simp only [hitc, Bool.not_false]
    rw [hstep]
    rfl
  · -- second toggle evaluates and the double update cancels
    have hfind2 : findOwnedItem
        { db with checklistItems := db.checklistItems.map (fun c =>
            if c.id == pk then { c with isCompleted := true, completedAt := some n1 }
            else c) } userId pk =
        some { it with isCompleted := true, completedAt := some n1 } := by
      rw [findOwnedItem_update, hfind]
      show some (if (it.id == pk) = true
          then { it with isCompleted := true, completedAt := some n1 } else it) =
        some { it with isCompleted := true, completedAt := some n1 }
      rw [if_pos hq.1]
    unfold toggle_checklist_item
    rw [hfind2]
    simp only [Bool.not_true, Bool.false_eq_true, if_false]
    rw [hstep]
    rw [hrestore]
  · -- invariant after the first toggle
    exact toggle_update_preserves_inv db pk true (some n1) rfl hinv

/-- Witness for C9: toggling item 2 of `dbC2` on (at time 5) and off
(at time 9) restores the store and the progress value. -/
theorem c9_toggle_round_trip_witness :
    findOwnedItem dbC2 2 2 = some { baseItem with id := 2 } ∧
    (∃ db1 r1 db2 r2,
      toggle_checklist_item 5 dbC2 2 2 = some (db1, r1) ∧
      toggle_checklist_item 9 db1 2 2 = some (db2, r2) ∧
      r1.is_completed = true ∧ r1.completed_at = some 5 ∧
      r2.is_completed = false ∧ r2.completed_at = none ∧
      db2 = dbC2 ∧
      (∀ c ∈ db1.checklistItems, c.completedAt.isSome = c.isCompleted) ∧
      ∃ step, dbC2.steps.find?
          (fun st => st.id == ({ baseItem with id := 2 } : ChecklistItem).stepId) =
          some step ∧
        r2.roadmap_progress.eqv
          (Roadmap.calculate_overall_progress dbC2 step.roadmapId) = true) :=
  ⟨by decide, c9_toggle_round_trip dbC2 2 2 5 9 { baseItem with id := 2 }
    (by decide) (by decide) (by decide)⟩

/-! ## C4 — roadmap-ingestion commit (`generate_roadmap`, src/tracker/views.py lines 576-613) -/

/-- One validated step of the AI payload (`roadmap_data['steps'][i]`). -/
structure StepPayload where
  order : Int
  title : String
  description : String
  category : String
  difficulty : String
  estimated_hours : Int
  checklist : List String
deriving DecidableEq, Repr

/-- A validated AI payload (`roadmap_data`). -/
structure RoadmapPayload where
  title : String
  overview : String
  steps : List StepPayload
deriving DecidableEq, Repr

/-- The row written by `RoadmapStep.objects.create(...)`. -/
def mkStepRow (rid sid : Nat) (sd : StepPayload) : RoadmapStep :=
  { id := sid, roadmapId := rid, orderNumber := sd.order, title := sd.title,
    description := sd.description, category := sd.category,
    difficulty := sd.difficulty, estimatedHours := sd.estimated_hours }

/-- The row written by `ChecklistItem.objects.create(...)`. -/
def mkItemRow (iid sid : Nat) (task : String) : ChecklistItem :=
  { id := iid, stepId := sid, taskDescription := task, isCompleted := false,
    completedAt := none }

/-- The row written by `Roadmap.objects.create(...)` (active, zero
cached steps until `update_total_steps`). -/
def mkRoadmapRow (rid subjectId termGoalId : Nat) (now : Int)
    (p : RoadmapPayload) : Roadmap :=
  { id := rid, subjectId := subjectId, termGoalId := termGoalId,
    title := p.title, overview := p.overview, totalSteps := 0,
    isActive := true, generatedAt := now }

/-- `ChecklistItem.objects.create(roadmap_step=step, task_description=task)`. -/
def addChecklistItem (sid : Nat) (db : DB) (task : String) : DB :=
  { db with
    checklistItems := db.checklistItems ++ [mkItemRow db.nextItemId sid task],
    nextItemId := db.nextItemId + 1 }

/-- `RoadmapStep.objects.create(...)` followed by the inner checklist
loop (src/tracker/views.py lines 594-610). -/
def addStep (rid : Nat) (db : DB) (sd : StepPayload) : DB :=
  let sid := db.nextStepId
  let dbA : DB :=
    { db with
      steps := db.steps ++ [mkStepRow rid sid sd],
      nextStepId := sid + 1 }
  sd.checklist.foldl (addChecklistItem sid) dbA

/-- `Roadmap.objects.filter(subject=subject, is_active=True).update(is_active=False)`
applied to one row. -/
def deactivateFor (subjectId : Nat) (r : Roadmap) : Roadmap :=
  if r.subjectId == subjectId && r.isActive then { r with isActive := false }
  else r

/-- `roadmap.update_total_steps()` applied to one row: write the cached
count on the new roadmap, leave other rows alone. -/
def setTotalSteps (rid n : Nat) (r : Roadmap) : Roadmap :=
  if r.id == rid then { r with totalSteps := n } else r

/-- The body of the `transaction.atomic()` block (src/tracker/views.py
lines 577-613): deactivate the subject's active roadmaps, insert the new
roadmap (active), insert its steps and checklist items, then
`update_total_steps` on the new roadmap. -/
def commit_roadmap (db : DB) (subjectId termGoalId : Nat) (now : Int)
    (p : RoadmapPayload) : DB :=
  let db0 : DB := { db with roadmaps := db.roadmaps.map (deactivateFor subjectId) }
  let rid := db0.nextRoadmapId
  let db1 : DB :=
    { db0 with
      roadmaps := db0.roadmaps ++ [mkRoadmapRow rid subjectId termGoalId now p],
      nextRoadmapId := rid + 1 }
  let db2 := p.steps.foldl (addStep rid) db1
  { db2 with
    roadmaps := db2.roadmaps.map
      (setTotalSteps rid (db2.roadmapSteps rid).length) }

/-- `transaction.atomic`: if anything inside the block raises (`fails`),
every write is rolled back and the store is unchanged (§5: the commit is
the one operation requiring atomicity); otherwise the whole block
applies. -/
def generate_roadmap_commit (fails : Bool) (db : DB) (subjectId termGoalId : Nat)
    (now : Int) (p : RoadmapPayload) : DB × Bool :=
  if fails then (db, false)
  else (commit_roadmap db subjectId termGoalId now p, true)

theorem addChecklistItem_fold_facts (sid : Nat) :
    ∀ (tasks : List String) (db : DB),
      ∃ ni,
        (tasks.foldl (addChecklistItem sid) db).checklistItems =
          db.checklistItems ++ ni ∧
        ni.length = tasks.length ∧
        (∀ c ∈ ni, c.stepId = sid) ∧
        (tasks.foldl (addChecklistItem sid) db).steps = db.steps ∧
        (tasks.foldl (addChecklistItem sid) db).roadmaps = db.roadmaps ∧
        (tasks.foldl (addChecklistItem sid) db).nextStepId = db.nextStepId ∧
        (tasks.foldl (addChecklistItem sid) db).nextRoadmapId = db.nextRoadmapId := by
  intro tasks
  induction tasks with
  | nil =>
    intro db
    exact ⟨[], by simp, rfl, by simp, rfl, rfl, rfl, rfl⟩
  | cons task rest ih =>
    intro db
    obtain ⟨ni, hitems, hlen, hstep, hsteps, hroad, hnsid, hnrid⟩ :=
      ih (addChecklistItem sid db task)
    refine ⟨mkItemRow db.nextItemId sid task :: ni, ?_, ?_, ?_, ?_, ?_, ?_, ?_⟩
    · simpa [addChecklistItem, List.append_assoc] using hitems
    · simpa using hlen
    · intro c hc
      rcases List.mem_cons.mp hc with h | h
      · rw [h]; rfl
      · exact hstep c h
    · simpa [addChecklistItem] using hsteps
    · simpa [addChecklistItem] using hroad
    · simpa [addChecklistItem] using hnsid
    · simpa [addChecklistItem] using hnrid

theorem addStep_fold_facts (rid : Nat) :
    ∀ (l : List StepPayload) (db : DB),
      ∃ ns ni,
        (l.foldl (addStep rid) db).steps = db.steps ++ ns ∧
        (l.foldl (addStep rid) db).checklistItems = db.checklistItems ++ ni ∧
        (l.foldl (addStep rid) db).roadmaps = db.roadmaps ∧
        (l.foldl (addStep rid) db).nextRoadmapId = db.nextRoadmapId ∧
        ns.length = l.length ∧
        ni.length = (l.map (fun s => s.checklist.length)).sum ∧
        (∀ s ∈ ns, s.roadmapId = rid ∧ db.nextStepId ≤ s.id) ∧
        (∀ c ∈ ni, ∃ s ∈ ns, s.id = c.stepId) := by
  intro l
  induction l with
  | nil =>
    intro db
    exact ⟨[], [], by simp, by simp, rfl, rfl, by simp, by simp, by simp, by simp⟩
  | cons sd rest ih =>
    intro db
    obtain ⟨ni0, hitems0, hlen0, hsid0, hsteps0, hroad0, hnsid0, hnrid0⟩ :=
      addChecklistItem_fold_facts db.nextStepId sd.checklist
        { db with
          steps := db.steps ++ [mkStepRow rid db.nextStepId sd],
          nextStepId := db.nextStepId + 1 }
    obtain ⟨ns1, ni1, hsteps1, hitems1, hroad1, hnrid1, hnslen1, hnilen1, hns1, hni1⟩ :=
      ih (sd.checklist.foldl (addChecklistItem db.nextStepId)
        { db with
          steps := db.steps ++ [mkStepRow rid db.nextStepId sd],
          nextStepId := db.nextStepId + 1 })
    have hfoldeq : rest.foldl (addStep rid) (addStep rid db sd) =
        rest.foldl (addStep rid)
          (sd.checklist.foldl (addChecklistItem db.nextStepId)
            { db with
              steps := db.steps ++ [mkStepRow rid db.nextStepId sd],
              nextStepId := db.nextStepId + 1 }) := rfl
    refine ⟨mkStepRow rid db.nextStepId sd :: ns1, ni0 ++ ni1,
      ?_, ?_, ?_, ?_, ?_, ?_, ?_, ?_⟩
    · show (rest.foldl (addStep rid) (addStep rid db sd)).steps = _
      rw [hfoldeq, hsteps1, hsteps0]
      simp
    · show (rest.foldl (addStep rid) (addStep rid db sd)).checklistItems = _
      rw [hfoldeq, hitems1, hitems0]
      simp
    · show (rest.foldl (addStep rid) (addStep rid db sd)).roadmaps = _
      rw [hfoldeq, hroad1, hroad0]
    · show (rest.foldl (addStep rid) (addStep rid db sd)).nextRoadmapId = _
      rw [hfoldeq, hnrid1, hnrid0]
    · simpa using hnslen1
    · simp only [List.length_append, hlen0, hnilen1, List.map_cons, List.sum_cons]
    · intro s hs
      rcases List.mem_cons.mp hs with h | h
      · subst h
        exact ⟨rfl, Nat.le_refl _⟩
      · obtain ⟨h1, h2⟩ := hns1 s h
        rw [hnsid0] at h2
        dsimp only at h2
        exact ⟨h1, by omega⟩
    · intro c hc
      rcases List.mem_append.mp hc with h | h
      · exact ⟨mkStepRow rid db.nextStepId sd, by simp, (hsid0 c h).symm⟩
      · obtain ⟨s, hsmem, hsid⟩ := hni1 c h
        exact ⟨s, by simp [hsmem], hsid⟩

@[simp] theorem setTotalSteps_id (rid n : Nat) (r : Roadmap) :
    (setTotalSteps rid n r).id = r.id := by
  unfold setTotalSteps; split <;> rfl

@[simp] theorem setTotalSteps_isActive (rid n : Nat) (r : Roadmap) :
    (setTotalSteps rid n r).isActive = r.isActive := by
  unfold setTotalSteps; split <;> rfl

@[simp] theorem setTotalSteps_subjectId (rid n : Nat) (r : Roadmap) :
    (setTotalSteps rid n r).subjectId = r.subjectId := by
  unfold setTotalSteps; split <;> rfl

@[simp] theorem deactivateFor_id (s : Nat) (r : Roadmap) :
    (deactivateFor s r).id = r.id := by
  unfold deactivateFor; split <;> rfl

@[simp] theorem deactivateFor_subjectId (s : Nat) (r : Roadmap) :
    (deactivateFor s r).subjectId = r.subjectId := by
  unfold deactivateFor; split <;> rfl

theorem deactivateFor_inactive (s : Nat) (r : Roadmap) (h : r.subjectId = s) :
    (deactivateFor s r).isActive = false := by
  unfold deactivateFor
  by_cases ha : r.isActive
  · simp [h, ha]
  · simp only [Bool.not_eq_true] at ha
    simp [h, ha]

/-- C4: for a validated payload with 5 steps of 4 checklist items each,
the atomic commit produces exactly one new Roadmap which is active with
total_steps = 5, adds exactly 5 RoadmapStep rows (all on the new
roadmap) and 20 ChecklistItem rows (all under the new steps), leaves
every other roadmap of the subject inactive, and on any failure partway
the store is exactly unchanged (all-or-nothing). The well-formedness
hypotheses say the store's primary keys sit below the id counters, as
the persistence layer guarantees. -/
theorem c4_commit_counts_and_atomicity (db : DB) (subjectId termGoalId : Nat)
    (now : Int) (p : RoadmapPayload)
    (h5 : p.steps.length = 5)
    (h4 : ∀ sd ∈ p.steps, sd.checklist.length = 4)
    (hwfR : ∀ r ∈ db.roadmaps, r.id < db.nextRoadmapId)
    (hwfS : ∀ st ∈ db.steps, st.roadmapId < db.nextRoadmapId ∧ st.id < db.nextStepId)
    (hwfC : ∀ c ∈ db.checklistItems, c.stepId < db.nextStepId) :
    (commit_roadmap db subjectId termGoalId now p).roadmaps.length =
      db.roadmaps.length + 1 ∧
    ((commit_roadmap db subjectId termGoalId now p).roadmaps.filter
      (fun r => r.id == db.nextRoadmapId)).map (fun r => (r.isActive, r.totalSteps)) =
      [(true, 5)] ∧
    ((commit_roadmap db subjectId termGoalId now p).steps.filter
      (fun s => s.roadmapId == db.nextRoadmapId)).length = 5 ∧
    (commit_roadmap db subjectId termGoalId now p).steps.length =
      db.steps.length + 5 ∧
    ((commit_roadmap db subjectId termGoalId now p).roadmapItems
      db.nextRoadmapId).length = 20 ∧
    (commit_roadmap db subjectId termGoalId now p).checklistItems.length =
      db.checklistItems.length + 20 ∧
    (∀ r ∈ (commit_roadmap db subjectId termGoalId now p).roadmaps,
      r.subjectId = subjectId → r.id ≠ db.nextRoadmapId → r.isActive = false) ∧
    generate_roadmap_commit true db subjectId termGoalId now p = (db, false) := by
  obtain ⟨ns, ni, hsteps, hitems, hroad, hnrid, hnslen, hnilen, hns, hni⟩ :=
    addStep_fold_facts db.nextRoadmapId p.steps
      { db with
        roadmaps := db.roadmaps.map (deactivateFor subjectId) ++
          [mkRoadmapRow db.nextRoadmapId subjectId termGoalId now p],
        nextRoadmapId := db.nextRoadmapId + 1 }
  dsimp only at hsteps hitems hroad hnrid hns
  have hnilen20 : ni.length = 20 := by
    rw [hnilen]
    have hmap : p.steps.map (fun s => s.checklist.length) =
        p.steps.map (fun _ => 4) := List.map_congr_left h4
    rw [hmap, List.map_const', h5]
    simp [List.sum_replicate, smul_eq_mul]
  have hnslen5 : ns.length = 5 := by rw [hnslen, h5]
  have hC : commit_roadmap db subjectId termGoalId now p =
      { p.steps.foldl (addStep db.nextRoadmapId)
          { db with
            roadmaps := db.roadmaps.map (deactivateFor subjectId) ++
              [mkRoadmapRow db.nextRoadmapId subjectId termGoalId now p],
            nextRoadmapId := db.nextRoadmapId + 1 } with
        roadmaps := (p.steps.foldl (addStep db.nextRoadmapId)
          { db with
            roadmaps := db.roadmaps.map (deactivateFor subjectId) ++
              [mkRoadmapRow db.nextRoadmapId subjectId termGoalId now p],
            nextRoadmapId := db.nextRoadmapId + 1 }).roadmaps.map
          (setTotalSteps db.nextRoadmapId
            ((p.steps.foldl (addStep db.nextRoadmapId)
              { db with
                roadmaps := db.roadmaps.map (deactivateFor subjectId) ++
                  [mkRoadmapRow db.nextRoadmapId subjectId termGoalId now p],
                nextRoadmapId := db.nextRoadmapId + 1 }).roadmapSteps
              db.nextRoadmapId).length) } := rfl
  have hstepsfilter :
      (p.steps.foldl (addStep db.nextRoadmapId)
        { db with
          roadmaps := db.roadmaps.map (deactivateFor subjectId) ++
            [mkRoadmapRow db.nextRoadmapId subjectId termGoalId now p],
          nextRoadmapId := db.nextRoadmapId + 1 }).steps.filter
        (fun s => s.roadmapId == db.nextRoadmapId) = ns := by
    rw [hsteps, List.filter_append]
    rw [List.filter_eq_nil_iff.mpr (fun st hst => by
      simp only [Bool.not_eq_true, beq_eq_false_iff_ne]
      exact Nat.ne_of_lt (hwfS st hst).1)]
    rw [List.filter_eq_self.mpr (fun s hs => by
      simp [(hns s hs).1])]
    simp
  have hroadSteps :
      ((p.steps.foldl (addStep db.nextRoadmapId)
        { db with
          roadmaps := db.roadmaps.map (deactivateFor subjectId) ++
            [mkRoadmapRow db.nextRoadmapId subjectId termGoalId now p],
          nextRoadmapId := db.nextRoadmapId + 1 }).roadmapSteps
        db.nextRoadmapId).length = 5 := by
    unfold DB.roadmapSteps
    rw [hstepsfilter, hnslen5]
  refine ⟨?_, ?_, ?_, ?_, ?_, ?_, ?_, rfl⟩
  · rw [hC]
    dsimp only
    rw [hroad]
    simp
  · rw [hC]
    dsimp only
    rw [hroad, List.map_append, List.filter_append]
    rw [List.filter_eq_nil_iff.mpr (fun r hr => by
      obtain ⟨r1, hr1, rfl⟩ := List.mem_map.mp hr
      obtain ⟨r0, hr0, rfl⟩ := List.mem_map.mp hr1
      have hlt : r0.id < db.nextRoadmapId := hwfR r0 hr0
      simp only [setTotalSteps_id, deactivateFor_id, Bool.not_eq_true,
        beq_eq_false_iff_ne]
      omega)]
    rw [show List.map (setTotalSteps db.nextRoadmapId
        ((p.steps.foldl (addStep db.nextRoadmapId)
          { db with
            roadmaps := db.roadmaps.map (deactivateFor subjectId) ++
              [mkRoadmapRow db.nextRoadmapId subjectId termGoalId now p],
            nextRoadmapId := db.nextRoadmapId + 1 }).roadmapSteps
          db.nextRoadmapId).length)
        [mkRoadmapRow db.nextRoadmapId subjectId termGoalId now p] =
      [{ mkRoadmapRow db.nextRoadmapId subjectId termGoalId now p with
          totalSteps := ((p.steps.foldl (addStep db.nextRoadmapId)
            { db with
              roadmaps := db.roadmaps.map (deactivateFor subjectId) ++
                [mkRoadmapRow db.nextRoadmapId subjectId termGoalId now p],
              nextRoadmapId := db.nextRoadmapId + 1 }).roadmapSteps
            db.nextRoadmapId).length }] from by
      simp [setTotalSteps, mkRoadmapRow]]
    rw [hroadSteps]
    simp [mkRoadmapRow]
  · rw [hC]
    dsimp only
    rw [hstepsfilter, hnslen5]
  · rw [hC]
    dsimp only
    rw [hsteps]
    simp [hnslen5]
  · rw [hC]
    unfold DB.roadmapItems
    dsimp only
    rw [hitems, hsteps, List.filter_append]
    rw [List.filter_eq_nil_iff.mpr (fun c hc => by
      simp only [List.any_eq_true, Bool.and_eq_true, beq_iff_eq, not_exists]
      rintro s ⟨hsmem, hsid, hsrid⟩
      rcases List.mem_append.mp hsmem with hold | hnew
      · exact absurd hsrid (Nat.ne_of_lt (hwfS s hold).1)
      · have h1 := (hns s hnew).2
        have h2 := hwfC c hc
        omega)]
    rw [List.filter_eq_self.mpr (fun c hc => by
      obtain ⟨s, hsmem, hsid⟩ := hni c hc
      simp only [List.any_eq_true, Bool.and_eq_true, beq_iff_eq]
      exact ⟨s, List.mem_append.mpr (Or.inr hsmem), hsid, (hns s hsmem).1⟩)]
    simp [hnilen20]
  · rw [hC]
    dsimp only
    rw [hitems]
    simp [hnilen20]
  · rw [hC]
    dsimp only
    intro r hr hsubj hrid
    rw [hroad] at hr
    obtain ⟨r1, hr1, rfl⟩ := List.mem_map.mp hr
    rcases List.mem_append.mp hr1 with hold | hnew
    · obtain ⟨r0, hr0, rfl⟩ := List.mem_map.mp hold
      rw [setTotalSteps_isActive]
      apply deactivateFor_inactive
      simpa using hsubj
    · exfalso
      simp only [List.mem_singleton] at hnew
      subst hnew
      apply hrid
      simp [mkRoadmapRow]

def stepPayloadC4 (i : Int) : StepPayload :=
  { order := i, title := "Step", description := "", category := "weakness",
    difficulty := "easy", estimated_hours := 2,
    checklist := ["a", "b", "c", "d"] }

/-- A validated payload with 5 steps of 4 checklist items each. -/
def payloadC4 : RoadmapPayload :=
  { title := "AI Plan", overview := "Overview",
    steps := [stepPayloadC4 1, stepPayloadC4 2, stepPayloadC4 3,
              stepPayloadC4 4, stepPayloadC4 5] }

/-- A subject with one currently-active roadmap. -/
def dbC4 : DB :=
  { DB.empty with
    subjects := [{ id := 1, userId := 2, name := "maths" }],
    termGoals := [{ id := 1, subjectId := 1, currentLevel := "4",
                    targetLevel := "7", term := "spring_2026", deadline := 100 }],
    roadmaps := [baseRoadmap],
    nextRoadmapId := 2 }

/-- Witness for C4: committing the 5×4 payload over `dbC4` adds exactly
one roadmap row. -/
theorem c4_commit_counts_witness :
    payloadC4.steps.length = 5 ∧
    (∀ sd ∈ payloadC4.steps, sd.checklist.length = 4) ∧
    (commit_roadmap dbC4 1 1 0 payloadC4).roadmaps.length =
      dbC4.roadmaps.length + 1 :=
  ⟨by decide, by decide,
   (c4_commit_counts_and_atomicity dbC4 1 1 0 payloadC4 (by decide) (by decide)
     (by decide) (by decide) (by decide)).1⟩

/-! ## C5 — AI payload validation (`AIRoadmapService._validate_roadmap`, src/tracker/ai_service.py lines 221-275) -/

/-- A JSON scalar. -/
inductive JPrim where
  | str (s : String)
  | num (n : Int)
  | bool (b : Bool)
  | null
deriving DecidableEq, Repr

/-- A JSON value as `json.loads` can produce it, to the depth the
validator inspects. -/
inductive JLite where
  | prim (p : JPrim)
  | list (xs : List JLite)
  | dict (kvs : List (String × JLite))

/-- The outcome of `_validate_roadmap`: normal return, a raised
`RoadmapGenerationError` carrying its message, or a raised exception of
a different class (`TypeError`/`KeyError` from Python operators given
ill-typed operands). -/
inductive VResult where
  | ok
  | genFailed (msg : String)
  | typeError
deriving DecidableEq, Repr

def required_fields : List String := ["title", "overview", "steps"]

def required_step_fields : List String :=
  ["order", "title", "description", "category", "difficulty",
   "estimated_hours", "checklist"]

def valid_categories : List String := ["weakness", "strength", "level_up"]

def valid_difficulties : List String := ["easy", "medium", "hard"]

/-- Python `field in step`: key containment for dicts, membership for
lists, substring for strings, `TypeError` otherwise. -/
def pyContains (step : JLite) (field : String) : Except Unit Bool :=
  match step with
  | .dict kvs => .ok (kvs.any (fun kv => kv.1 == field))
  | .list xs => .ok (xs.any (fun x => match x with
      | .prim (.str t) => t == field
      | _ => false))
  | .prim (.str s) => .ok (strContains s field)
  | .prim _ => .error ()

/-- Python `step[field]` with a string subscript: dictionary lookup, a
`TypeError` for any other container (and a `KeyError` for a missing key,
unreachable after the presence loop). -/
def pyGetItem (step : JLite) (field : String) : Except Unit JLite :=
  match step with
  | .dict kvs =>
    match kvs.find? (fun kv => kv.1 == field) with
    | some kv => .ok kv.2
    | none => .error ()
  | _ => .error ()

/-- The `for field in required_fields` presence loop (fail-fast). -/
def checkRequired (kvs : List (String × JLite)) : List String → VResult
  | [] => .ok
  | f :: rest =>
    if kvs.any (fun kv => kv.1 == f) then checkRequired kvs rest
    else .genFailed ("Missing required field: " ++ f)

/-- The `for field in required_step_fields` presence loop for one step. -/
def checkStepFields (i : Nat) (step : JLite) : List String → VResult
  | [] => .ok
  | f :: rest =>
    match pyContains step f with
    | .error _ => .typeError
    | .ok true => checkStepFields i step rest
    | .ok false =>
      .genFailed ("Step " ++ toString (i + 1) ++ " missing required field: " ++ f)

/-- The per-step validation (src/tracker/ai_service.py lines 246-275):
field presence, category, difficulty, checklist type, checklist length —
in that order, stopping at the first violation. -/
def checkStep (i : Nat) (step : JLite) : VResult :=
  match checkStepFields i step required_step_fields with
  | .ok =>
    match pyGetItem step "category" with
    | .error _ => .typeError
    | .ok cat =>
      let catOk := match cat with
        | .prim (.str c) => valid_categories.contains c
        | _ => false
      if !catOk then
        .genFailed ("Step " ++ toString (i + 1) ++ " has invalid category")
      else
        match pyGetItem step "difficulty" with
        | .error _ => .typeError
        | .ok dif =>
          let difOk := match dif with
            | .prim (.str d) => valid_difficulties.contains d
            | _ => false
          if !difOk then
            .genFailed ("Step " ++ toString (i + 1) ++ " has invalid difficulty")
          else
            match pyGetItem step "checklist" with
            | .error _ => .typeError
            | .ok cl =>
              match cl with
              | .list xs =>
                if xs.length < 2 || xs.length > 7 then
                  .genFailed ("Step " ++ toString (i + 1) ++
                    " should have 3-5 checklist items")
                else .ok
              | _ =>
                .genFailed ("Step " ++ toString (i + 1) ++
                  " checklist must be a list")
  | r => r

/-- `for i, step in enumerate(roadmap_data['steps'])`, fail-fast. -/
def checkSteps : Nat → List JLite → VResult
  | _, [] => .ok
  | i, s :: rest =>
    match checkStep i s with
    | .ok => checkSteps (i + 1) rest
    | r => r

/-- `AIRoadmapService._validate_roadmap` (src/tracker/ai_service.py
lines 221-275). -/
def validate_roadmap (roadmap_data : List (String × JLite)) : VResult :=
  match checkRequired roadmap_data required_fields with
  | .ok =>
    match pyGetItem (.dict roadmap_data) "steps" with
    | .error _ => .typeError
    | .ok stepsVal =>
      match stepsVal with
      | .list steps =>
        if steps.length < 3 || steps.length > 8 then
          .genFailed ("Expected 4-6 steps, got " ++ toString steps.length)
        else checkSteps 0 steps
      | _ => .genFailed "Steps must be a list"
  | r => r

/-- One step as the claim words it: a mapping carrying `order, title,
description, category, difficulty, estimated_hours, checklist`, with
category and difficulty drawn from the fixed sets and checklist a
sequence of length in [2, 7]. -/
def stepSpecOk (step : JLite) : Bool :=
  match step with
  | .dict kvs =>
    required_step_fields.all (fun f => kvs.any (fun kv => kv.1 == f)) &&
    (match kvs.find? (fun kv => kv.1 == "category") with
     | some kv => match kv.2 with
       | .prim (.str c) => valid_categories.contains c
       | _ => false
     | none => false) &&
    (match kvs.find? (fun kv => kv.1 == "difficulty") with
     | some kv => match kv.2 with
       | .prim (.str d) => valid_difficulties.contains d
       | _ => false
     | none => false) &&
    (match kvs.find? (fun kv => kv.1 == "checklist") with
     | some kv => match kv.2 with
       | .list xs => decide (2 ≤ xs.length) && decide (xs.length ≤ 7)
       | _ => false
     | none => false)
  | _ => false

/-- The claim's validity predicate: `title`, `overview`, `steps`
present, `steps` a sequence of length in [3, 8], every step valid per
`stepSpecOk`. -/
def validSpec (kvs : List (String × JLite)) : Bool :=
  required_fields.all (fun f => kvs.any (fun kv => kv.1 == f)) &&
  (match kvs.find? (fun kv => kv.1 == "steps") with
   | some kv => match kv.2 with
     | .list steps =>
       decide (3 ≤ steps.length) && decide (steps.length ≤ 8) &&
         steps.all stepSpecOk
     | _ => false
   | none => false)

theorem checkRequired_ok_iff (kvs : List (String × JLite)) :
    ∀ fs, checkRequired kvs fs = .ok ↔
      fs.all (fun f => kvs.any (fun kv => kv.1 == f)) = true := by
  intro fs
  induction fs with
  | nil => simp [checkRequired]
  | cons f rest ih =>
    simp only [checkRequired, List.all_cons, Bool.and_eq_true]
    by_cases h : kvs.any (fun kv => kv.1 == f) = true
    · simp [h, ih]
    · simp [h]

theorem checkStepFields_dict_ok_iff (i : Nat) (kvs : List (String × JLite)) :
    ∀ fs, checkStepFields i (.dict kvs) fs = .ok ↔
      fs.all (fun f => kvs.any (fun kv => kv.1 == f)) = true := by
  intro fs
  induction fs with
  | nil => simp [checkStepFields]
  | cons f rest ih =>
    simp only [checkStepFields, pyContains, List.all_cons, Bool.and_eq_true]
    by_cases h : kvs.any (fun kv => kv.1 == f) = true
    · simp [h, ih]
    · simp only [Bool.not_eq_true] at h
      simp [h]

theorem find?_isSome_of_any (kvs : List (String × JLite)) (f : String)
    (h : kvs.any (fun kv => kv.1 == f) = true) :
    ∃ kv, kvs.find? (fun kv => kv.1 == f) = some kv := by
  rw [List.any_eq_true] at h
  obtain ⟨kv, hm, hp⟩ := h
  exact Option.isSome_iff_exists.mp (List.find?_isSome.mpr ⟨kv, hm, hp⟩)

theorem checkStep_ok_iff (i : Nat) (step : JLite) :
    checkStep i step = .ok ↔ stepSpecOk step = true := by
  cases step with
  | prim p =>
    cases hf : checkStepFields i (.prim p) required_step_fields <;>
      simp [checkStep, hf, pyGetItem, stepSpecOk]
  | list xs =>
    cases hf : checkStepFields i (.list xs) required_step_fields <;>
      simp [checkStep, hf, pyGetItem, stepSpecOk]
  | dict kvs =>
    cases hf : checkStepFields i (.dict kvs) required_step_fields with
    | genFailed m =>
      have hall : ¬ required_step_fields.all
          (fun f => kvs.any (fun kv => kv.1 == f)) = true := fun h => by
        simpa [hf] using (checkStepFields_dict_ok_iff i kvs required_step_fields).mpr h
      simp [checkStep, hf, stepSpecOk, hall]
    | typeError =>
      have hall : ¬ required_step_fields.all
          (fun f => kvs.any (fun kv => kv.1 == f)) = true := fun h => by
        simpa [hf] using (checkStepFields_dict_ok_iff i kvs required_step_fields).mpr h
      simp [checkStep, hf, stepSpecOk, hall]
    | ok =>
      have hall : required_step_fields.all
          (fun f => kvs.any (fun kv => kv.1 == f)) = true :=
        (checkStepFields_dict_ok_iff i kvs required_step_fields).mp hf
      have hcat : kvs.any (fun kv => kv.1 == "category") = true := by
        simpa using List.all_eq_true.mp hall "category" (by simp [required_step_fields])
      have hdif : kvs.any (fun kv => kv.1 == "difficulty") = true := by
        simpa using List.all_eq_true.mp hall "difficulty" (by simp [required_step_fields])
      have hcl : kvs.any (fun kv => kv.1 == "checklist") = true := by
        simpa using List.all_eq_true.mp hall "checklist" (by simp [required_step_fields])
      obtain ⟨kvc, hkvc⟩ := find?_isSome_of_any kvs "category" hcat
      obtain ⟨kvd, hkvd⟩ := find?_isSome_of_any kvs "difficulty" hdif
      obtain ⟨kvl, hkvl⟩ := find?_isSome_of_any kvs "checklist" hcl
      obtain ⟨kc, vc⟩ := kvc
      obtain ⟨kd, vd⟩ := kvd
      obtain ⟨kl, vl⟩ := kvl
      simp only [checkStep, hf, pyGetItem, hkvc, hkvd, hkvl, stepSpecOk, hall,
        Bool.true_and, Bool.and_eq_true]
      cases vc with
      | prim pc =>
        cases pc with
        | str c =>
          by_cases hcc : valid_categories.contains c = true
          · simp only [hcc, Bool.not_true, if_false, true_and]
            cases vd with
            | prim pd =>
              cases pd with
              | str d =>
                by_cases hdd : valid_difficulties.contains d = true
                · simp only [hdd, Bool.not_true, if_false, true_and]
                  cases vl with
                  | list xs =>
                    by_cases hb : (xs.length < 2 || xs.length > 7) = true
                    · simp only [hb, if_true]
                      simp only [Bool.or_eq_true_iff, decide_eq_true_eq] at hb
                      constructor
                      · intro h
                        cases h
                      · intro h
                        simp only [Bool.and_eq_true, decide_eq_true_eq] at h
                        omega
                    · simp only [hb, if_false]
                      simp only [Bool.or_eq_true_iff, decide_eq_true_eq, not_or,
                        Nat.not_lt] at hb
                      simp only [Bool.and_eq_true, decide_eq_true_eq]
                      constructor
                      · intro _
                        exact ⟨by omega, by omega⟩
                      · intro _
                        rfl
                  | prim q => cases q <;> simp
                  | dict kvs2 => simp
                · have hdd2 : d ∉ valid_difficulties := by simpa using hdd
                  simp [hdd2]
              | num n => simp
              | bool b => simp
              | null => simp
            | list ys => simp
            | dict kvs2 => simp
          · have hcc2 : c ∉ valid_categories := by simpa using hcc
            simp [hcc2]
        | num n => simp
        | bool b => simp
        | null => simp
      | list ys => simp
      | dict kvs2 => simp

theorem checkSteps_ok_iff : ∀ (l : List JLite) (i : Nat),
    checkSteps i l = .ok ↔ l.all stepSpecOk = true := by
  intro l
  induction l with
  | nil => intro i; simp [checkSteps]
  | cons s rest ih =>
    intro i
    simp only [checkSteps, List.all_cons, Bool.and_eq_true]
    cases hs : checkStep i s with
    | ok =>
      have h1 := (checkStep_ok_iff i s).mp hs
      rw [ih (i + 1)]
      simp [h1, List.all_eq_true]
    | genFailed m =>
      have h1 : ¬ stepSpecOk s = true := fun h => by
        simpa [hs] using (checkStep_ok_iff i s).mpr h
      simp [h1]
    | typeError =>
      have h1 : ¬ stepSpecOk s = true := fun h => by
        simpa [hs] using (checkStep_ok_iff i s).mpr h
      simp [h1]

/-- A structurally valid AI step. -/
def goodStep : JLite :=
  .dict [("order", .prim (.num 1)), ("title", .prim (.str "t")),
         ("description", .prim (.str "d")),
         ("category", .prim (.str "weakness")),
         ("difficulty", .prim (.str "easy")),
         ("estimated_hours", .prim (.num 3)),
         ("checklist", .list [.prim (.str "a"), .prim (.str "b"),
                              .prim (.str "c")])]

/-- A step whose category string is not one of the three valid values. -/
def badCatStep : JLite :=
  .dict [("order", .prim (.num 1)), ("title", .prim (.str "t")),
         ("description", .prim (.str "d")),
         ("category", .prim (.str "grammar")),
         ("difficulty", .prim (.str "easy")),
         ("estimated_hours", .prim (.num 3)),
         ("checklist", .list [.prim (.str "a"), .prim (.str "b"),
                              .prim (.str "c")])]

/-- A payload with the three top-level keys and the given steps. -/
def payloadWith (steps : List JLite) : List (String × JLite) :=
  [("title", .prim (.str "T")), ("overview", .prim (.str "O")),
   ("steps", .list steps)]

/-- C5: validation succeeds iff the payload satisfies exactly the
claim's structural contract (`validSpec`); a payload with 2 steps is
rejected with the step-count error even when it also carries an invalid
category deeper inside (fail-fast: first violation wins), a payload
with 9 steps is rejected, a step with an unrecognized category string is
rejected with a `RoadmapGenerationError`-class failure, and a
conforming payload passes. -/
theorem c5_validate_roadmap_iff_spec :
    (∀ kvs, validate_roadmap kvs = .ok ↔ validSpec kvs = true) ∧
    validate_roadmap (payloadWith [goodStep, badCatStep]) =
      .genFailed "Expected 4-6 steps, got 2" ∧
    validate_roadmap (payloadWith (List.replicate 9 goodStep)) =
      .genFailed "Expected 4-6 steps, got 9" ∧
    validate_roadmap (payloadWith [goodStep, goodStep, badCatStep]) =
      .genFailed "Step 3 has invalid category" ∧
    validate_roadmap (payloadWith [goodStep, goodStep, goodStep]) = .ok := by
  refine ⟨?_, by decide, by decide, by decide, by decide⟩
  intro kvs
  unfold validate_roadmap validSpec
  cases hr : checkRequired kvs required_fields with
  | genFailed m =>
    have h1 : ¬ required_fields.all (fun f => kvs.any (fun kv => kv.1 == f)) = true :=
      fun h => by simpa [hr] using (checkRequired_ok_iff kvs required_fields).mpr h
    simp [h1]
  | typeError =>
    have h1 : ¬ required_fields.all (fun f => kvs.any (fun kv => kv.1 == f)) = true :=
      fun h => by simpa [hr] using (checkRequired_ok_iff kvs required_fields).mpr h
    simp [h1]
  | ok =>
    have hall : required_fields.all (fun f => kvs.any (fun kv => kv.1 == f)) = true :=
      (checkRequired_ok_iff kvs required_fields).mp hr
    have hst : kvs.any (fun kv => kv.1 == "steps") = true := by
      simpa using List.all_eq_true.mp hall "steps" (by simp [required_fields])
    obtain ⟨kvsfield, hkvs⟩ := find?_isSome_of_any kvs "steps" hst
    obtain ⟨ks, vs⟩ := kvsfield
    simp only [pyGetItem, hkvs, hall, Bool.true_and]
    cases vs with
    | prim q => cases q <;> simp
    | dict kvs2 => simp
    | list steps =>
      by_cases hb : (steps.length < 3 || steps.length > 8) = true
      · simp only [hb, if_true]
        simp only [Bool.or_eq_true_iff, decide_eq_true_eq] at hb
        constructor
        · intro h
          cases h
        · intro h
          simp only [Bool.and_eq_true, decide_eq_true_eq] at h
          omega
      · simp only [hb, Bool.false_eq_true, if_false]
        simp only [Bool.or_eq_true_iff, decide_eq_true_eq, not_or, Nat.not_lt] at hb
        rw [checkSteps_ok_iff steps 0]
        simp only [Bool.and_eq_true, decide_eq_true_eq]
        constructor
        · intro h
          exact ⟨⟨by omega, by omega⟩, h⟩
        · intro h
          exact h.2

/-- C5 counterexample: the claim says any violation raises a single
`GenerationFailed`-class error, but a step that is not a mapping (here
the number 5) makes the presence loop's `field not in step` raise a
`TypeError` — a different exception class. -/
theorem c5_nonmapping_step_raises_typeerror :
    validate_roadmap (payloadWith [.prim (.num 5), .prim (.num 6), .prim (.num 7)]) =
      .typeError := by
  decide
